import Mathlib

/-!
Verification of the request-validation and response-normalization pipeline of
`src/main.py` (the `weather` Flask handler).

Modelling choices:
* Strings are Lean `String`s (lists of Unicode scalar chars, matching Python
  `len` on code points); case mapping (`Char.toUpper`/`Char.toLower`) models
  the ASCII fragment of Python's case mapping.
* JSON numbers (`main.temp`, `main.feels_like`) are rationals; Python's
  `f"{x:.2f}"` rounds the value to two decimals with round-half-to-even,
  modelled exactly on the rational value (`pyFormat2`).
* The scalar values of `wind.speed` / `wind.deg` are carried as the strings
  Python's f-string interpolation would render them to; only their presence or
  absence matters to the pipeline (`dict.get` with default `'N/A'`).
* The HTTP client (`requests.get` + `raise_for_status` + `.json()`) is a
  parameter `client : String → Except String WeatherData` taking the request
  URL; `Except.error msg` stands for a raised
  `requests.exceptions.RequestException` (which also covers the JSON decode
  error raised by `.json()`) with `str(e) = msg`.
* Python exceptions are the `PyErr` type; the handler's single `except`
  clause catches only `requests.exceptions.RequestException`, so any other
  exception (KeyError, IndexError, pytz.UnknownTimeZoneError) escapes the
  handler, modelled as an `Except.error` result of `lookup`.
* `datetime.now(tz)` is modelled by passing the current Unix time `now : ℤ`;
  civil-date conversion uses the standard days-from-epoch algorithm.
-/

/-- The ASCII whitespace characters removed by Python's `str.strip()`
(restriction of Python's Unicode whitespace set to ASCII). -/
def pyIsSpace (c : Char) : Bool :=
  c = ' ' || c = '\t' || c = '\n' || c = '\r' || c = Char.ofNat 11 || c = Char.ofNat 12

/-- Python `str.strip()`: drop leading and trailing whitespace
(`src/main.py` line 18). -/
def pyStrip (s : String) : String :=
  ⟨((s.data.dropWhile pyIsSpace).reverse.dropWhile pyIsSpace).reverse⟩

/-- Python `str.capitalize()`: first character uppercased, every remaining
character lowercased (`src/main.py` line 75). -/
def pyCapitalize (s : String) : String :=
  match s.data with
  | [] => ""
  | c :: rest => ⟨c.toUpper :: rest.map Char.toLower⟩

/-- Modelled from the spec: "description capitalized (first letter uppercase,
rest unchanged)" — the capitalization the spec describes, for comparison with
`pyCapitalize` from the source. -/
def specCapitalize (s : String) : String :=
  match s.data with
  | [] => ""
  | c :: rest => ⟨c.toUpper :: rest⟩

/-- Zero-pad a natural number to two digits (Python `%d`, `%H`, `%M`, `%S`). -/
def pad2 (n : ℕ) : String :=
  if n < 10 then "0" ++ toString n else toString n

/-- Round a rational to the nearest integer, ties to even (the rounding of
IEEE-754 formatting used by Python's fixed-point `format`). -/
def roundHalfEven (q : ℚ) : ℤ :=
  let f := ⌊q⌋
  let r := q - (f : ℚ)
  if r < 1/2 then f
  else if 1/2 < r then f + 1
  else if f % 2 = 0 then f else f + 1

/-- Python `f"{q:.2f}"` on the exact rational value `q`: sign, then the
magnitude rounded half-to-even to two decimal places
(`src/main.py` lines 72-73). -/
def pyFormat2 (q : ℚ) : String :=
  let n := (roundHalfEven (|q| * 100)).toNat
  (if q < 0 then "-" else "") ++ toString (n / 100) ++ "." ++ pad2 (n % 100)

/-- The hour count interpolated into the zone name: Python's
`-timezone_offset // 3600`, i.e. floor division of the negated offset
(`src/main.py` line 56). -/
def hourArg (tz : ℤ) : ℤ := Int.fdiv (-tz) 3600

/-- The fixed-offset zone name built at `src/main.py` line 56: the literal
Etc/GMT, then an explicit plus sign exactly when the offset is negative, then
the decimal rendering of `hourArg`. -/
def zoneName (tz : ℤ) : String :=
  "Etc/GMT" ++ (if tz < 0 then "+" else "") ++ toString (hourArg tz)

/-- Weekday names as produced by `strftime('%A')`. -/
def dayNames : List String :=
  ["Monday", "Tuesday", "Wednesday", "Thursday", "Friday", "Saturday", "Sunday"]

/-- Month names as produced by `strftime('%B')`. -/
def monthNames : List String :=
  ["January", "February", "March", "April", "May", "June", "July",
   "August", "September", "October", "November", "December"]

/-- Python strftime %A on a local civil time given as seconds since the epoch
(1970-01-01 was a Thursday). -/
def fmtDay (t : ℤ) : String :=
  dayNames.getD ((Int.fdiv t 86400 + 3).emod 7).toNat ""

/-- Convert a count of days since 1970-01-01 to a civil `(year, month, day)`
(standard era/day-of-era algorithm for the proleptic Gregorian calendar). -/
def civilFromDays (z0 : ℤ) : ℤ × ℕ × ℕ :=
  let z := z0 + 719468
  let era := Int.fdiv z 146097
  let doe := (z - era * 146097).toNat
  let yoe := (doe - doe / 1460 + doe / 36524 - doe / 146096) / 365
  let y : ℤ := (yoe : ℤ) + era * 400
  let doy := doe - (365 * yoe + yoe / 4 - yoe / 100)
  let mp := (5 * doy + 2) / 153
  let d := doy - (153 * mp + 2) / 5 + 1
  let m := if mp < 10 then mp + 3 else mp - 9
  (if m ≤ 2 then y + 1 else y, m, d)

/-- Python strftime with pattern %d %B %Y on a local civil time given as
seconds since the epoch (`src/main.py` line 61). -/
def fmtDate (t : ℤ) : String :=
  let c := civilFromDays (Int.fdiv t 86400)
  pad2 c.2.2 ++ " " ++ monthNames.getD (c.2.1 - 1) "" ++ " " ++ toString c.1

/-- Python strftime with pattern %H:%M:%S on a local civil time given as
seconds since the epoch (`src/main.py` lines 64-65). -/
def fmtTime (t : ℤ) : String :=
  let s := (Int.emod t 86400).toNat
  pad2 (s / 3600) ++ ":" ++ pad2 (s % 3600 / 60) ++ ":" ++ pad2 (s % 60)

/-- The `sys` sub-object of the provider response; each field is `none` when
the key is absent from the JSON. -/
structure SysData where
  country : Option String
  sunrise : Option ℤ
  sunset : Option ℤ

/-- The `main` sub-object of the provider response. -/
structure MainData where
  temp : Option ℚ
  feels_like : Option ℚ
  humidity : Option ℤ

/-- The `wind` sub-object; values are carried as their f-string rendering. -/
structure WindData where
  speed : Option String
  deg : Option String

/-- The parsed provider JSON body. `weather` is the list of `description`
fields of the objects in the `weather` array (`none` when an object lacks the
key). -/
structure WeatherData where
  cod : Option ℤ
  name : Option String
  sys : Option SysData
  main : Option MainData
  weather : List (Option String)
  wind : Option WindData
  timezone : Option ℤ

/-- Python exceptions that the handler's code can raise. -/
inductive PyErr where
  | requestException (msg : String)
  | keyError (key : String)
  | indexError
  | unknownTimeZoneError (name : String)
deriving DecidableEq, Repr

/-- Python dictionary subscription d[key]: the value, or a raised `KeyError`
when the key is absent. -/
def reqKey {α : Type} (k : String) : Option α → Except PyErr α
  | some v => Except.ok v
  | none => Except.error (PyErr.keyError k)

/-- The success branch of the `try` block (`src/main.py` lines 39-83):
extraction, formatting, and assembly of the `weather_info` dict (modelled as
an association list in insertion order), or the not-found error dict.
Uncaught exceptions surface as `Except.error`. -/
def weatherBody (d : WeatherData) (now : ℤ) : Except PyErr (List (String × String)) :=
  if d.cod = some 200 then do
    let city_name ← reqKey "name" d.name
    let sys ← reqKey "sys" d.sys
    let country ← reqKey "country" sys.country
    let main ← reqKey "main" d.main
    let temperature ← reqKey "temp" main.temp
    let feels_like ← reqKey "feels_like" main.feels_like
    let humidity ← reqKey "humidity" main.humidity
    let w0 ← match d.weather with
      | [] => Except.error PyErr.indexError
      | x :: _ => Except.ok x
    let weather_desc ← reqKey "description" w0
    let wind ← reqKey "wind" d.wind
    let wind_speed := wind.speed.getD "N/A"
    let wind_deg := wind.deg.getD "N/A"
    let tz ← reqKey "timezone" d.timezone
    let h := hourArg tz
    -- pytz only knows the zones Etc/GMT-14 … Etc/GMT+12; any other name
    -- raises pytz.UnknownTimeZoneError, which the handler does not catch.
    if h < -14 ∨ 12 < h then Except.error (PyErr.unknownTimeZoneError (zoneName tz)) else do
    -- the zone named Etc/GMT{h} has UTC offset -h hours (POSIX sign inversion)
    let zoff := -3600 * h
    let current_time := now + zoff
    let day := fmtDay current_time
    let date := fmtDate current_time
    let sunrise_ts ← reqKey "sunrise" sys.sunrise
    let sunset_ts ← reqKey "sunset" sys.sunset
    let sunrise_time := fmtTime (sunrise_ts + zoff)
    let sunset_time := fmtTime (sunset_ts + zoff)
    Except.ok [
      ("city", city_name ++ ", " ++ country),
      ("day", day),
      ("date", date),
      ("temperature", pyFormat2 temperature ++ "°C"),
      ("feels_like", pyFormat2 feels_like ++ "°C"),
      ("humidity", toString humidity ++ "%"),
      ("description", pyCapitalize weather_desc),
      ("wind_speed", wind_speed ++ " m/s"),
      ("wind_deg", wind_deg ++ "°"),
      ("sunrise", sunrise_time),
      ("sunset", sunset_time)]
  else Except.ok [("error", "City not found. Please check the city name.")]

/-- The `try`/`except` of `src/main.py` lines 33-87. The single `except`
clause catches only `requests.exceptions.RequestException`, which only the
HTTP call / JSON decode (the `client`) raises, so a client failure becomes
the transport-error dict while exceptions from `weatherBody` pass through
uncaught. -/
def handleResp (r : Except String WeatherData) (now : ℤ) :
    Except PyErr (List (String × String)) :=
  match r with
  | Except.error e =>
      Except.ok [("error", "An error occurred while fetching weather data: " ++ e)]
  | Except.ok wd => weatherBody wd now

/-- The outbound request URL (`src/main.py` line 30): a raw f-string
concatenation, with no percent-encoding of the city. -/
def buildUrl (apiKey city : String) : String :=
  "http://api.openweathermap.org/data/2.5/weather?appid=" ++ apiKey ++
    "&q=" ++ city ++ "&units=metric"

/-- The POST branch of the `weather` handler (`src/main.py` lines 18-87):
validation of the submitted city, the outbound call, and response handling.
The result is the `weather_info` dict handed to the renderer, or an uncaught
exception. -/
def lookup (rawCity apiKey : String) (client : String → Except String WeatherData)
    (now : ℤ) : Except PyErr (List (String × String)) :=
  let city := pyStrip rawCity
  if city = "" then
    Except.ok [("error", "Please enter a valid city name.")]
  else if 100 < city.length then
    Except.ok [("error", "City name is too long. Please enter a valid city name.")]
  else
    handleResp (client (buildUrl apiKey city)) now

/-- Field access on a lookup result: the value stored under a key of the
`weather_info` dict, when the lookup produced one. -/
def getField (r : Except PyErr (List (String × String))) (k : String) : Option String :=
  match r with
  | Except.ok info => info.lookup k
  | Except.error _ => none

/-- A fully-populated provider response with `cod`, names, numbers, the wind
scalars and the timestamps given. -/
def mkResp (cod : ℤ) (cityName country : String) (temp feels : ℚ) (hum : ℤ)
    (desc : String) (ws wd : Option String) (tz sunrise sunset : ℤ) : WeatherData :=
  { cod := some cod, name := some cityName,
    sys := some ⟨some country, some sunrise, some sunset⟩,
    main := some ⟨some temp, some feels, some hum⟩,
    weather := [some desc],
    wind := some ⟨ws, wd⟩,
    timezone := some tz }

/-- A `cod = 200` response whose body lacks the `name` key. -/
def respNoName : WeatherData :=
  { cod := some 200, name := none,
    sys := some ⟨some "FR", some 1700000000, some 1700040000⟩,
    main := some ⟨some 20, some 19, some 50⟩,
    weather := [some "clear sky"],
    wind := some ⟨some "5", some "200"⟩,
    timezone := some 0 }

/-- The keys of a success `weather_info` dict, in insertion order. -/
def successKeys : List String :=
  ["city", "day", "date", "temperature", "feels_like", "humidity",
   "description", "wind_speed", "wind_deg", "sunrise", "sunset"]

example : pyStrip "  Paris " = "Paris" := by decide
example : hourArg (-18000) = 5 ∧ zoneName (-18000) = "Etc/GMT+5" := by decide
example : hourArg 19800 = -6 ∧ zoneName 19800 = "Etc/GMT-6" := by decide
example : fmtTime 1700000000 = "22:13:20" := by decide
example : fmtDate 1700000000 = "14 November 2023" ∧ fmtDay 1700000000 = "Tuesday" := by decide

/-- Helper: the two-decimal rendering of the exact value 21.456 is 21.46. -/
lemma pyFormat2_21456 : pyFormat2 (21456/1000) = "21.46" := by
  have habs : |(21456/1000 : ℚ)| * 100 = 10728/5 := by
    rw [abs_of_nonneg (by norm_num)]
    norm_num
  have hfl : (⌊(10728/5 : ℚ)⌋ : ℤ) = 2145 := by
    rw [Int.floor_eq_iff]
    norm_num
  have hr : roundHalfEven (10728/5) = 2146 := by
    simp only [roundHalfEven, hfl]
    rw [if_neg (by norm_num), if_pos (by norm_num)]
    decide
  have hneg : ¬ ((21456/1000 : ℚ) < 0) := by norm_num
  simp only [pyFormat2, habs, hr, if_neg hneg]
  decide

/-- Counterexample to C1: for the provider offset 19800 s (UTC+5:30) the code
computes hour argument -6 by floor division, while truncating integer
division of -19800 by 3600 gives -5. -/
theorem hourArg_ne_truncating_at_19800 :
    hourArg 19800 = -6 ∧ Int.tdiv (-19800) 3600 = -5 ∧
      hourArg 19800 ≠ Int.tdiv (-19800) 3600 := by
  decide

/-- C1 (amended): the hour offset used to pick the fixed-offset zone is
computed with floor division (rounding toward negative infinity), namely
`Int.fdiv (-tz) 3600`; this agrees with truncating division whenever the
offset is non-positive or divisible by 3600, but not in general. -/
theorem hourArg_is_floor_division (tz : ℤ) :
    hourArg tz = Int.fdiv (-tz) 3600 ∧
    (tz ≤ 0 → hourArg tz = Int.tdiv (-tz) 3600) ∧
    (3600 ∣ tz → hourArg tz = Int.tdiv (-tz) 3600) := by
  refine ⟨rfl, ?_, ?_⟩
  · intro h
    exact Int.fdiv_eq_tdiv (by omega) (by omega)
  · rintro ⟨k, rfl⟩
    show Int.fdiv (-(3600 * k)) 3600 = Int.tdiv (-(3600 * k)) 3600
    rw [show -(3600 * k) = 3600 * (-k) by ring]
    rw [Int.mul_fdiv_cancel_left _ (by norm_num), Int.mul_tdiv_cancel_left _ (by norm_num)]

/-- Witness for C1 (amended) at the offset -18000 s (UTC-5). -/
theorem hourArg_is_floor_division_witness :
    hourArg (-18000) = Int.tdiv (-(-18000)) 3600 :=
  (hourArg_is_floor_division (-18000)).2.1 (by decide)

/-- Counterexample to C2: on the provider description "clear SKY" the code
displays "Clear sky" (the rest of the string is lowercased), not the
first-letter-only capitalization "Clear SKY" that the claim describes. -/
theorem description_rest_not_preserved :
    getField (lookup "Paris" "K"
        (fun _ => Except.ok (mkResp 200 "Paris" "FR" 20 20 50 "clear SKY"
          none none 0 1700000000 1700020000)) 0) "description" = some "Clear sky" ∧
    specCapitalize "clear SKY" = "Clear SKY" ∧
    ("Clear sky" : String) ≠ "Clear SKY" := by
  refine ⟨rfl, rfl, by decide⟩

/-- C2 (amended): for every provider description, the displayed description
has its first character uppercased and every remaining character lowercased
(the behavior of Python str.capitalize). -/
theorem description_first_upper_rest_lower (desc : String) :
    getField (lookup "Paris" "K"
        (fun _ => Except.ok (mkResp 200 "Paris" "FR" 20 20 50 desc
          none none 0 1700000000 1700020000)) 0) "description" =
      some (⟨match desc.data with
             | [] => []
             | c :: rest => c.toUpper :: rest.map Char.toLower⟩ : String) := by
  have h : getField (lookup "Paris" "K"
      (fun _ => Except.ok (mkResp 200 "Paris" "FR" 20 20 50 desc
        none none 0 1700000000 1700020000)) 0) "description" =
      some (pyCapitalize desc) := rfl
  rw [h]
  rcases desc with ⟨l⟩
  cases l <;> rfl

/-- Counterexample to C3: a cod-200 response whose body lacks the name key
makes the handler raise KeyError, which escapes the lookup instead of being
returned as a Failure value. -/
theorem missing_key_exception_escapes :
    lookup "Paris" "K" (fun _ => Except.ok respNoName) 0 =
      Except.error (PyErr.keyError "name") := rfl

/-- C3 (amended): only transport-layer exceptions (RequestException raised by
the HTTP call or the JSON decode) are caught and wrapped into the Failure
error channel; an exception raised while extracting response fields (here the
KeyError for the missing name key) escapes the handler uncaught. -/
theorem only_request_exceptions_caught (m : String) :
    lookup "Paris" "K" (fun _ => Except.error m) 0 =
      Except.ok [("error", "An error occurred while fetching weather data: " ++ m)] ∧
    lookup "Paris" "K" (fun _ => Except.ok respNoName) 0 =
      Except.error (PyErr.keyError "name") :=
  ⟨rfl, rfl⟩

/-- C4: a raw input whose trimmed form is longer than 100 characters yields
the too-long Failure, and the result is the same for every client, so the
outbound HTTP client is never consulted. -/
theorem long_input_rejected_without_call (raw apiKey : String)
    (client : String → Except String WeatherData) (now : ℤ)
    (h : 100 < (pyStrip raw).length) :
    lookup raw apiKey client now =
      Except.ok [("error", "City name is too long. Please enter a valid city name.")] ∧
    ∀ client2 : String → Except String WeatherData,
      lookup raw apiKey client now = lookup raw apiKey client2 now := by
  have hne : pyStrip raw ≠ "" := by
    intro e
    rw [e] at h
    simp at h
  have key : ∀ c : String → Except String WeatherData,
      lookup raw apiKey c now =
        Except.ok [("error", "City name is too long. Please enter a valid city name.")] := by
    intro c
    simp only [lookup]
    rw [if_neg hne, if_pos h]
  exact ⟨key client, fun c2 => (key client).trans (key c2).symm⟩

/-- Witness for C4 at a 101-character input. -/
theorem long_input_rejected_without_call_witness :
    lookup ⟨List.replicate 101 'a'⟩ "K" (fun _ => Except.error "down") 0 =
      Except.ok [("error", "City name is too long. Please enter a valid city name.")] :=
  (long_input_rejected_without_call ⟨List.replicate 101 'a'⟩ "K"
    (fun _ => Except.error "down") 0 (by decide)).1

/-- C5: a raw input consisting only of whitespace (the empty string included)
yields the empty-input Failure for every client; since this holds even when
the raw input is longer than 100 characters, the emptiness check short-circuits
ahead of the length check. -/
theorem whitespace_only_rejected_first (raw : String)
    (h : ∀ c ∈ raw.data, pyIsSpace c) (apiKey : String)
    (client : String → Except String WeatherData) (now : ℤ) :
    lookup raw apiKey client now =
      Except.ok [("error", "Please enter a valid city name.")] := by
  have hs : pyStrip raw = "" := by
    have h1 : raw.data.dropWhile pyIsSpace = [] := List.dropWhile_eq_nil_iff.mpr h
    simp [pyStrip, h1]
  simp only [lookup]
  rw [if_pos hs]

set_option maxRecDepth 4000 in
/-- Witness for C5 at an input of 150 spaces (longer than 100 characters,
still rejected as empty rather than as too long). -/
theorem whitespace_only_rejected_first_witness :
    lookup ⟨List.replicate 150 ' '⟩ "K" (fun _ => Except.error "down") 0 =
      Except.ok [("error", "Please enter a valid city name.")] :=
  whitespace_only_rejected_first ⟨List.replicate 150 ' '⟩ (by decide) "K"
    (fun _ => Except.error "down") 0

/-- C6: a parsed provider response whose cod field is not 200 yields the
city-not-found Failure, whatever the other fields hold. -/
theorem cod_not_200_city_not_found (d : WeatherData) (h : d.cod ≠ some 200)
    (apiKey : String) (now : ℤ) :
    lookup "Paris" apiKey (fun _ => Except.ok d) now =
      Except.ok [("error", "City not found. Please check the city name.")] := by
  simp only [lookup]
  rw [if_neg (by decide), if_neg (by decide)]
  simp only [handleResp, weatherBody]
  rw [if_neg h]

/-- Witness for C6 at a cod-404 response. -/
theorem cod_not_200_city_not_found_witness :
    lookup "Paris" "K"
        (fun _ => Except.ok (mkResp 404 "x" "y" 1 1 1 "d" none none 0 0 0)) 0 =
      Except.ok [("error", "City not found. Please check the city name.")] :=
  cod_not_200_city_not_found (mkResp 404 "x" "y" 1 1 1 "d" none none 0 0 0)
    (by decide) "K" 0

/-- C7: the displayed temperature and feels-like strings are the numeric
values rounded to two decimal places followed by the Celsius suffix, and the
exact value 21.456 renders as 21.46 with the suffix. -/
theorem temperature_two_decimals (t f : ℚ) :
    getField (lookup "Paris" "K"
        (fun _ => Except.ok (mkResp 200 "Paris" "FR" t f 50 "clear sky"
          (some "5.1") (some "200") 0 1700000000 1700020000)) 0)
      "temperature" = some (pyFormat2 t ++ "°C") ∧
    getField (lookup "Paris" "K"
        (fun _ => Except.ok (mkResp 200 "Paris" "FR" t f 50 "clear sky"
          (some "5.1") (some "200") 0 1700000000 1700020000)) 0)
      "feels_like" = some (pyFormat2 f ++ "°C") ∧
    getField (lookup "Paris" "K"
        (fun _ => Except.ok (mkResp 200 "Paris" "FR" (21456/1000) (21456/1000) 50
          "clear sky" (some "5.1") (some "200") 0 1700000000 1700020000)) 0)
      "temperature" = some "21.46°C" := by
  refine ⟨rfl, rfl, ?_⟩
  have h : getField (lookup "Paris" "K"
      (fun _ => Except.ok (mkResp 200 "Paris" "FR" (21456/1000) (21456/1000) 50
        "clear sky" (some "5.1") (some "200") 0 1700000000 1700020000)) 0)
      "temperature" = some (pyFormat2 (21456/1000) ++ "°C") := rfl
  rw [h, pyFormat2_21456]
  rfl

/-- C8: an absent wind.speed or wind.deg field is displayed as N/A with the
unit suffix. -/
theorem wind_fields_default_na (wspd wdeg : Option String) :
    getField (lookup "Paris" "K"
        (fun _ => Except.ok (mkResp 200 "Paris" "FR" 20 20 50 "clear sky"
          none wdeg 0 1700000000 1700020000)) 0) "wind_speed" = some "N/A m/s" ∧
    getField (lookup "Paris" "K"
        (fun _ => Except.ok (mkResp 200 "Paris" "FR" 20 20 50 "clear sky"
          wspd none 0 1700000000 1700020000)) 0) "wind_deg" = some "N/A°" :=
  ⟨rfl, rfl⟩

/-- Helper for C9: every dict the success branch can return carries either
exactly the error key or exactly the eleven display keys. -/
lemma weatherBody_shape (d : WeatherData) (now : ℤ)
    (info : List (String × String)) (h : weatherBody d now = Except.ok info) :
    info.map Prod.fst = ["error"] ∨ info.map Prod.fst = successKeys := by
  rw [weatherBody] at h
  split at h
  · simp only [bind, Except.bind, reqKey] at h
    repeat' split at h
    all_goals cases h
    all_goals (right ; rfl)
  · cases h
    left
    rfl

/-- C9: every lookup outcome that the handler hands to the renderer is either
the single-field Failure dict or a Success dict populated with all eleven
display fields. -/
theorem result_fully_populated (raw apiKey : String)
    (client : String → Except String WeatherData) (now : ℤ)
    (info : List (String × String))
    (h : lookup raw apiKey client now = Except.ok info) :
    info.map Prod.fst = ["error"] ∨ info.map Prod.fst = successKeys := by
  simp only [lookup] at h
  split at h
  · injection h with h2; subst h2; left; rfl
  · split at h
    · injection h with h2; subst h2; left; rfl
    · rcases hc : client (buildUrl apiKey (pyStrip raw)) with e | wd <;> rw [hc] at h
      · simp only [handleResp] at h
        injection h with h2
        subst h2
        left
        rfl
      · simp only [handleResp] at h
        exact weatherBody_shape wd now info h

/-- Witness for C9 at an empty submitted city. -/
theorem result_fully_populated_witness :
    ([("error", "Please enter a valid city name.")] : List (String × String)).map
        Prod.fst = ["error"] ∨
    ([("error", "Please enter a valid city name.")] : List (String × String)).map
        Prod.fst = successKeys :=
  result_fully_populated "" "K" (fun _ => Except.error "down") 0
    [("error", "Please enter a valid city name.")] rfl

/-- C10: for a validated city the handler calls the client on exactly the raw
string concatenation of the base address, API key, city and unit parameter,
with no escaping; in particular two different city strings containing literal
ampersands can produce the same outbound URL. -/
theorem outbound_url_raw_concat (raw apiKey : String)
    (client : String → Except String WeatherData) (now : ℤ)
    (h1 : pyStrip raw ≠ "") (h2 : (pyStrip raw).length ≤ 100) :
    lookup raw apiKey client now =
      handleResp (client ("http://api.openweathermap.org/data/2.5/weather?appid=" ++
        apiKey ++ "&q=" ++ pyStrip raw ++ "&units=metric")) now ∧
    buildUrl "K" "A&units=metric&q=B" = buildUrl "K&q=A&units=metric" "B" := by
  constructor
  · simp only [lookup, buildUrl]
    rw [if_neg h1, if_neg (not_lt.mpr h2)]
  · decide

/-- Witness for C10 at the city Paris. -/
theorem outbound_url_raw_concat_witness :
    lookup "Paris" "KEY" (fun _ => Except.error "down") 0 =
      handleResp ((fun _ => Except.error "down" :
          String → Except String WeatherData)
        ("http://api.openweathermap.org/data/2.5/weather?appid=" ++ "KEY" ++
          "&q=" ++ pyStrip "Paris" ++ "&units=metric")) 0 ∧
    buildUrl "K" "A&units=metric&q=B" = buildUrl "K&q=A&units=metric" "B" :=
  outbound_url_raw_concat "Paris" "KEY" (fun _ => Except.error "down") 0
    (by decide) (by decide)
